import Mathlib

/-!
Verification development for the STT ZMQ pipe service core.

The definitions below are a shallow embedding of the service sources:
the msgpack wire codec wrappers (messaging/serialization.py), the message
schemas (messaging/schemas.py), the audio admission pipeline
(processing/audio.py), the engine lifecycle manager (core/model_manager.py),
the transcription wrapper (core/transcription.py), the receive path of the
transport bridge (messaging/zmq_handler.py) and the per request step of the
service loop (service.py).

Modelling conventions: Python byte strings are lists of naturals, Python
floats are rationals used as uninterpreted scalars, the msgpack library is modelled
at the level of its structured value domain MsgVal (packb and unpackb are the
identity between that domain and the wire), the soundfile decode
capability and the nemo inference capability are function parameters, and
temporary files live in an explicit file store FS with a fresh id allocator.
-/

namespace STT

/-- Structured value domain of the msgpack codec: the Python values that
packb consumes and unpackb produces for this protocol. -/
inductive MsgVal : Type
  | nil
  | boolean (b : Bool)
  | int (i : Int)
  | float (q : Rat)
  | str (s : String)
  | bin (bytes : List Nat)
  | map (kvs : List (String × MsgVal))

/-- Python dict key lookup over the association list of a msgpack map. -/
def msgLookup (kvs : List (String × MsgVal)) (k : String) : Option MsgVal :=
  match kvs with
  | [] => none
  | (k2, v) :: rest => if k2 = k then some v else msgLookup rest k

/-- Python obj.get(k, dflt): lookup with a default value. -/
def msgGet (kvs : List (String × MsgVal)) (k : String) (dflt : MsgVal) : MsgVal :=
  match msgLookup kvs k with
  | some v => v
  | none => dflt

/-- AudioRequest dataclass from messaging/schemas.py. -/
structure AudioRequest where
  request_id : String
  audio_format : String
  sample_rate : Int
  audio_data : List Nat
  deriving DecidableEq

/-- AudioRequest.validate from messaging/schemas.py: the four checks in
source order, short circuiting on the first failure. -/
def AudioRequest.validate (r : AudioRequest) : Bool × Option String :=
  if r.request_id = "" then
    (false, some "request_id cannot be empty")
  else if ¬ (r.audio_format = "wav" ∨ r.audio_format = "flac") then
    (false, some ("Invalid audio format: " ++ r.audio_format ++ ". Must be \x27wav\x27 or \x27flac\x27"))
  else if r.sample_rate ≤ 0 then
    (false, some ("Invalid sample rate: " ++ toString r.sample_rate))
  else if r.audio_data = [] then
    (false, some "audio_data cannot be empty")
  else
    (true, none)

/-- TranscriptionResponse dataclass from messaging/schemas.py. -/
structure TranscriptionResponse where
  request_id : String
  status : String
  text : String
  confidence : Option Rat
  processing_time_ms : Rat
  error_details : Option String
  deriving DecidableEq

/-- TranscriptionResponse.create_success factory. -/
def TranscriptionResponse.create_success (request_id text : String)
    (processing_time_ms : Rat) (confidence : Option Rat) : TranscriptionResponse :=
  ⟨request_id, "success", text, confidence, processing_time_ms, none⟩

/-- TranscriptionResponse.create_error factory. -/
def TranscriptionResponse.create_error (request_id error_message : String)
    (processing_time_ms : Rat) : TranscriptionResponse :=
  ⟨request_id, "error", "", none, processing_time_ms, some error_message⟩

/-- Python value stored for an optional float field: None packs to nil. -/
def optFloatMsg : Option Rat → MsgVal
  | none => .nil
  | some q => .float q

/-- Python value stored for an optional string field: None packs to nil. -/
def optStrMsg : Option String → MsgVal
  | none => .nil
  | some s => .str s

/-- serialize_audio_request from messaging/serialization.py: the dict that
is handed to msgpack.packb. -/
def serialize_audio_request (r : AudioRequest) : MsgVal :=
  .map [("request_id", .str r.request_id),
        ("audio_format", .str r.audio_format),
        ("sample_rate", .int r.sample_rate),
        ("audio_data", .bin r.audio_data)]

/-- serialize_transcription_response from messaging/serialization.py. -/
def serialize_transcription_response (r : TranscriptionResponse) : MsgVal :=
  .map [("request_id", .str r.request_id),
        ("status", .str r.status),
        ("text", .str r.text),
        ("confidence", optFloatMsg r.confidence),
        ("processing_time_ms", .float r.processing_time_ms),
        ("error_details", optStrMsg r.error_details)]

/-- The AudioRequest object as built by the deserializer: Python is
dynamically typed, so each field holds whatever msgpack value the wire map
carried under that key. -/
structure PyAudioRequest where
  request_id : MsgVal
  audio_format : MsgVal
  sample_rate : MsgVal
  audio_data : MsgVal

/-- The TranscriptionResponse object as built by the deserializer. -/
structure PyTranscriptionResponse where
  request_id : MsgVal
  status : MsgVal
  text : MsgVal
  confidence : MsgVal
  processing_time_ms : MsgVal
  error_details : MsgVal

/-- Outcome of a deserializer call: a fully populated object, a ValueError
(the wrapped KeyError or unpack failure), or an uncaught TypeError from
subscripting a non dict unpacked object. -/
inductive DeserOutcome (α : Type) : Type
  | ok (value : α)
  | valueError (msg : String)
  | typeError (msg : String)

/-- deserialize_audio_request from messaging/serialization.py, applied to
the value that msgpack.unpackb produced. Required keys are read with dict
indexing in source order; a missing key raises KeyError which the except
clause rewraps as ValueError; indexing a non dict value raises TypeError,
which the except clause does not catch. -/
def deserialize_audio_request (v : MsgVal) : DeserOutcome PyAudioRequest :=
  match v with
  | .map kvs =>
    match msgLookup kvs "request_id" with
    | none => .valueError "Failed to deserialize AudioRequest: \x27request_id\x27"
    | some a =>
      match msgLookup kvs "audio_format" with
      | none => .valueError "Failed to deserialize AudioRequest: \x27audio_format\x27"
      | some b =>
        match msgLookup kvs "sample_rate" with
        | none => .valueError "Failed to deserialize AudioRequest: \x27sample_rate\x27"
        | some c =>
          match msgLookup kvs "audio_data" with
          | none => .valueError "Failed to deserialize AudioRequest: \x27audio_data\x27"
          | some d => .ok ⟨a, b, c, d⟩
  | _ => .typeError "object is not subscriptable"

/-- deserialize_transcription_response from messaging/serialization.py:
request_id, status and text are required (dict indexing); confidence,
processing_time_ms and error_details are read with obj.get, the last one
with default 0.0. -/
def deserialize_transcription_response (v : MsgVal) : DeserOutcome PyTranscriptionResponse :=
  match v with
  | .map kvs =>
    match msgLookup kvs "request_id" with
    | none => .valueError "Failed to deserialize TranscriptionResponse: \x27request_id\x27"
    | some a =>
      match msgLookup kvs "status" with
      | none => .valueError "Failed to deserialize TranscriptionResponse: \x27status\x27"
      | some b =>
        match msgLookup kvs "text" with
        | none => .valueError "Failed to deserialize TranscriptionResponse: \x27text\x27"
        | some c =>
          .ok ⟨a, b, c, msgGet kvs "confidence" .nil,
               msgGet kvs "processing_time_ms" (.float 0),
               msgGet kvs "error_details" .nil⟩
  | _ => .typeError "object is not subscriptable"

/-- The Python object a typed AudioRequest denotes: the dynamically typed
record whose fields carry the corresponding msgpack values. Dataclass
equality in Python is fieldwise equality of these values. -/
def AudioRequest.toPy (r : AudioRequest) : PyAudioRequest :=
  ⟨.str r.request_id, .str r.audio_format, .int r.sample_rate, .bin r.audio_data⟩

/-- The Python object a typed TranscriptionResponse denotes. -/
def TranscriptionResponse.toPy (r : TranscriptionResponse) : PyTranscriptionResponse :=
  ⟨.str r.request_id, .str r.status, .str r.text, optFloatMsg r.confidence,
   .float r.processing_time_ms, optStrMsg r.error_details⟩

/-- Audio array returned by the soundfile read capability: either a one
dimensional sample vector or a two dimensional array of frames with a fixed
column count (the channel count, shape index 1). -/
inductive NpArray : Type
  | d1 (samples : List Rat)
  | d2 (rows : List (List Rat)) (cols : Nat)
  deriving DecidableEq

/-- Content of a staged temporary file: the raw request bytes written by
write_temp_file, or decoded audio written back by soundfile write during
mono conversion. -/
inductive FileData : Type
  | raw (bytes : List Nat) (fmt : String)
  | audio (data : NpArray) (sample_rate : Int)
  deriving DecidableEq

/-- Explicit store of live temporary files, with a fresh id allocator
standing in for the fresh names of tempfile.NamedTemporaryFile. -/
structure FS where
  nextId : Nat
  files : List (Nat × FileData)
  deriving DecidableEq

/-- Allocator discipline: every live file id was allocated in the past. -/
def FS.WF (fs : FS) : Prop :=
  ∀ pr ∈ fs.files, pr.1 < fs.nextId

/-- Create a fresh temporary file holding the given data. -/
def addFile (fs : FS) (d : FileData) : FS :=
  ⟨fs.nextId + 1, fs.files ++ [(fs.nextId, d)]⟩

/-- Drop every entry with the given id from a file listing. -/
def removeAll (n : Nat) : List (Nat × FileData) → List (Nat × FileData)
  | [] => []
  | pr :: rest => if pr.1 = n then removeAll n rest else pr :: removeAll n rest

/-- Path.unlink of one temporary file. -/
def removeFile (fs : FS) (n : Nat) : FS :=
  ⟨fs.nextId, removeAll n fs.files⟩

/-- AudioProcessor.cleanup_temp_file as invoked from the finally block of
the service: a no op on None, otherwise unlink. -/
def cleanupTemp (fs : FS) : Option Nat → FS
  | none => fs
  | some p => removeFile fs p

/-- The soundfile read capability, a black box collaborator: from the staged bytes and
declared format to decoded samples and the actual sample rate, or a
LibsndfileError. -/
abbrev ReadCap : Type := List Nat → String → Except String (NpArray × Int)

/-- The AudioProcessor configuration surface (processing/audio.py init). -/
structure AudioProcessorCfg where
  expected_sample_rate : Int
  convert_to_mono : Bool

/-- numpy mean over axis 1 of a two dimensional array: each row is averaged
over the column count shape index 1. -/
def npMeanAxis1 (rows : List (List Rat)) (cols : Nat) : List Rat :=
  rows.map (fun r => r.sum / (cols : Rat))

/-- Rejection message of the stereo branch in handle_stereo_audio. -/
def stereoDisabledMsg : String :=
  "Audio is stereo but mono conversion is disabled. Expected mono audio (1 channel)."

/-- Rejection message of validate_sample_rate. -/
def sampleRateMsg (expected got : Int) : String :=
  "Invalid sample rate: expected " ++ toString expected ++ "Hz, got " ++ toString got ++ "Hz"

/-- AudioProcessor handle_stereo_audio from processing/audio.py: stereo
means a two dimensional array whose shape index 1 equals 2. Mono input is
passed through; stereo input is rejected (file unlinked) when conversion is
disabled, otherwise convert_to_mono writes the axis 1 mean to a fresh file
and the original stereo file is unlinked. -/
def handle_stereo_audio (cfg : AudioProcessorCfg) (fs : FS) (data : NpArray)
    (sample_rate : Int) (tempId : Nat) :
    FS × (Bool × Option String × Option Nat) :=
  match data with
  | .d1 _ => (fs, (true, none, some tempId))
  | .d2 rows cols =>
    if cols = 2 then
      if ¬ cfg.convert_to_mono then
        (removeFile fs tempId, (false, some stereoDisabledMsg, none))
      else
        let monoId := fs.nextId
        let fs1 := addFile fs (.audio (.d1 (npMeanAxis1 rows cols)) sample_rate)
        (removeFile fs1 tempId, (true, none, some monoId))
    else
      (fs, (true, none, some tempId))

/-- AudioProcessor.validate_and_process from processing/audio.py: stage the
bytes to a fresh temporary file, decode them with the read capability
(decode failure unlinks the staged file and is reported as a
LibsndfileError rejection), compare the actual sample rate against the
configured expected rate (mismatch unlinks and rejects), then apply the
stereo policy. -/
def validate_and_process (cfg : AudioProcessorCfg) (read : ReadCap) (fs : FS)
    (audio_data : List Nat) (audio_format : String) :
    FS × (Bool × Option String × Option Nat) :=
  let tempId := fs.nextId
  let fs1 := addFile fs (.raw audio_data audio_format)
  match read audio_data audio_format with
  | .error e =>
    (removeFile fs1 tempId, (false, some ("Failed to read audio file: " ++ e), none))
  | .ok (data, sample_rate) =>
    if sample_rate ≠ cfg.expected_sample_rate then
      (removeFile fs1 tempId,
       (false, some (sampleRateMsg cfg.expected_sample_rate sample_rate), none))
    else
      handle_stereo_audio cfg fs1 data sample_rate tempId

/-- Result shape returned by the black box nemo transcribe call: the source
handles hypothesis objects carrying text and an optional score, plain
strings, and anything else via str conversion. -/
inductive NemoResult : Type
  | hyp (text : String) (score : Option Rat)
  | strRes (s : String)
  | other (s : String)

/-- Text extraction branch of TranscriptionEngine.transcribe. -/
def NemoResult.textOf : NemoResult → String
  | .hyp t _ => t
  | .strRes s => s
  | .other s => s

/-- Confidence extraction branch of TranscriptionEngine.transcribe. -/
def NemoResult.confOf : NemoResult → Option Rat
  | .hyp _ sc => sc
  | .strRes _ => none
  | .other _ => none

/-- The inference capability behind TranscriptionEngine.transcribe: the
model managed by ModelManager applied to the staged audio path. Its error
case also covers an engine load failure inside get_model. -/
abbrev TranscribeCap : Type := Option Nat → Except String (List NemoResult)

/-- TranscriptionEngine.transcribe from core/transcription.py: forward the
path to the capability, reject empty result lists, normalize the first
result, and report elapsed wall clock time. Every failure is rewrapped as
RuntimeError whose message starts with Transcription failed. -/
def transcribe (tcap : TranscribeCap) (elapsed_ms : Rat) (audio_file_path : Option Nat) :
    Except String (String × Rat × Option Rat) :=
  match tcap audio_file_path with
  | .error e => .error ("Transcription failed: " ++ e)
  | .ok [] => .error ("Transcription failed: Transcription returned empty results")
  | .ok (r :: _) => .ok (r.textOf, elapsed_ms, r.confOf)

/-- Engine lifecycle state of ModelManager: the one model slot, the last
access stamp, and a count of materializations so far (the successive
instance identities). -/
structure MMState where
  model : Option Nat
  last_used_time : Rat
  load_count : Nat
  deriving DecidableEq

/-- Materialization capability: whether the n-th load attempt succeeds. -/
abbrev LoaderCap : Type := Nat → Bool

/-- ModelManager.get_model from core/model_manager.py: under the lock, load
if the slot is empty (a failed load raises and leaves the state unchanged),
then restamp the last access time and return the model. -/
def get_model (loader : LoaderCap) (now : Rat) (s : MMState) : MMState × Except String Nat :=
  match s.model with
  | some m => ({ s with last_used_time := now }, .ok m)
  | none =>
    if loader s.load_count then
      (⟨some s.load_count, now, s.load_count + 1⟩, .ok s.load_count)
    else
      (s, .error "Model loading failed")

/-- One iteration body of the monitor_timeout background thread: under the
lock, if a model is loaded and its idle time has reached the timeout,
deallocate it. -/
def monitorTick (timeout_seconds now : Rat) (s : MMState) : MMState :=
  match s.model with
  | none => s
  | some _ =>
    if now - s.last_used_time ≥ timeout_seconds then { s with model := none } else s

/-- Outcome of ZMQHandler.receive_request as observed by the service loop:
a poll timeout or dropped frame (None), a ValueError raised out of
deserialization, or a decoded request with the peer identity. -/
inductive RecvOutcome : Type
  | timeout
  | deserFailure (msg : String)
  | msg (identity : List Nat) (req : AudioRequest)

/-- Result of one service loop iteration: the file store after the finally
block and the responses pushed to the output socket. -/
structure ProcResult where
  fs : FS
  sent : List TranscriptionResponse
  deriving DecidableEq

/-- Python str applied to an optional string, as it appears inside the
error f-strings of the service. -/
def pyStr : Option String → String
  | none => "None"
  | some s => s

/-- The part of STTService process_one_request after request validation
succeeded: run the admission pipeline, short circuit to an error response
on rejection, otherwise transcribe and build a success or error response;
the finally block releases the staged artifact on every path. -/
def processValid (cfg : AudioProcessorCfg) (read : ReadCap) (tcap : TranscribeCap)
    (elapsed_ms : Rat) (req : AudioRequest) (fs : FS) : ProcResult :=
  match validate_and_process cfg read fs req.audio_data req.audio_format with
  | (fs1, (true, _, temp_file)) =>
    (match transcribe tcap elapsed_ms temp_file with
     | .ok (text, t, conf) =>
       ⟨cleanupTemp fs1 temp_file,
        [TranscriptionResponse.create_success req.request_id text t conf]⟩
     | .error e =>
       ⟨cleanupTemp fs1 temp_file,
        [TranscriptionResponse.create_error req.request_id ("Transcription failed: " ++ e) 0]⟩)
  | (fs1, (false, emsg, temp_file)) =>
    ⟨cleanupTemp fs1 temp_file,
     [TranscriptionResponse.create_error req.request_id
        ("Audio validation failed: " ++ pyStr emsg) 0]⟩

/-- STTService process_one_request from service.py: a poll timeout and a
dropped frame produce nothing, a deserialization ValueError is caught and
logged, and a decoded request is validated before the admission pipeline
and inference run. -/
def processOneRequest (cfg : AudioProcessorCfg) (read : ReadCap) (tcap : TranscribeCap)
    (elapsed_ms : Rat) (recv : RecvOutcome) (fs : FS) : ProcResult :=
  match recv with
  | .timeout => ⟨fs, []⟩
  | .deserFailure _ => ⟨fs, []⟩
  | .msg _ req =>
    match req.validate with
    | (true, _) => processValid cfg read tcap elapsed_ms req fs
    | (false, emsg) =>
      ⟨fs, [TranscriptionResponse.create_error req.request_id
              ("Request validation failed: " ++ pyStr emsg) 0]⟩

/-- The inbound poll as seen by ZMQHandler.receive_request: a timeout or a
multipart message. -/
inductive PollResult : Type
  | timeout
  | frames (parts : List (List Nat))

/-- Observable result of ZMQHandler.receive_request: None, a re-raised
ValueError, or an identity plus decoded request. -/
inductive RecvResult : Type
  | noMsg
  | raisesValueError (msg : String)
  | got (identity : List Nat) (req : PyAudioRequest)

/-- The msgpack.unpackb capability applied to a payload frame. -/
abbrev UnpackCap : Type := List Nat → Except String MsgVal

/-- deserialize_audio_request applied to raw payload bytes: an unpack
failure is rewrapped as ValueError, otherwise the unpacked value is
destructured. -/
def deserialize_audio_request_bytes (unpack : UnpackCap) (b : List Nat) :
    DeserOutcome PyAudioRequest :=
  match unpack b with
  | .error e => .valueError ("Failed to deserialize AudioRequest: " ++ e)
  | .ok v => deserialize_audio_request v

/-- ZMQHandler.receive_request from messaging/zmq_handler.py: a poll
timeout returns None; fewer than two frames are logged and return None; a
deserialization ValueError is re-raised; any other exception (such as the
TypeError on a non dict payload) returns None. -/
def receive_request (unpack : UnpackCap) (p : PollResult) : RecvResult :=
  match p with
  | .timeout => .noMsg
  | .frames parts =>
    if parts.length < 2 then .noMsg
    else
      match deserialize_audio_request_bytes unpack (parts.getLastD []) with
      | .ok r => .got (parts.headD []) r
      | .valueError e => .raisesValueError e
      | .typeError _ => .noMsg

/-- Boolean test that one character list starts with another. -/
def charPrefixEq : List Char → List Char → Bool
  | [], _ => true
  | _ :: _, [] => false
  | a :: as, b :: bs => a == b && charPrefixEq as bs

/-- Boolean test that a character list occurs inside another. -/
def charListHasSub (needle : List Char) : List Char → Bool
  | [] => charPrefixEq needle []
  | c :: cs => charPrefixEq needle (c :: cs) || charListHasSub needle cs

/-- Substring containment on strings, used to state the error detail
claims. -/
def strContains (hay needle : String) : Bool :=
  charListHasSub needle.data hay.data

/-! Helper lemmas shared by the claim theorems. -/

lemma optFloatMsg_inj {a b : Option Rat} (h : optFloatMsg a = optFloatMsg b) : a = b := by
  cases a <;> cases b <;> simp_all [optFloatMsg]

lemma optStrMsg_inj {a b : Option String} (h : optStrMsg a = optStrMsg b) : a = b := by
  cases a <;> cases b <;> simp_all [optStrMsg]

lemma removeAll_append (n : Nat) (l1 l2 : List (Nat × FileData)) :
    removeAll n (l1 ++ l2) = removeAll n l1 ++ removeAll n l2 := by
  induction l1 with
  | nil => rfl
  | cons pr rest ih => by_cases h : pr.1 = n <;> simp [removeAll, h, ih]

lemma removeAll_fresh (n : Nat) (l : List (Nat × FileData))
    (h : ∀ pr ∈ l, pr.1 ≠ n) : removeAll n l = l := by
  induction l with
  | nil => rfl
  | cons pr rest ih =>
    have hpr : pr.1 ≠ n := h pr (List.mem_cons_self pr rest)
    simp [removeAll, hpr]
    exact ih (fun q hq => h q (List.mem_cons_of_mem pr hq))

lemma removeAll_staged (n : Nat) (d : FileData) (l : List (Nat × FileData))
    (h : ∀ pr ∈ l, pr.1 ≠ n) : removeAll n (l ++ [(n, d)]) = l := by
  rw [removeAll_append, removeAll_fresh n l h]
  simp [removeAll]

lemma removeAll_singleton_ne (n m : Nat) (e : FileData) (h : m ≠ n) :
    removeAll n [(m, e)] = [(m, e)] := by
  simp [removeAll, h]

lemma removeAll_self_singleton (n : Nat) (d : FileData) : removeAll n [(n, d)] = [] := by
  simp [removeAll]

lemma removeAll_succ_singleton (n : Nat) (d : FileData) :
    removeAll n [(n + 1, d)] = [(n + 1, d)] :=
  removeAll_singleton_ne n (n + 1) d (by omega)

lemma fresh_of_WF (fs : FS) (hwf : fs.WF) : ∀ pr ∈ fs.files, pr.1 ≠ fs.nextId :=
  fun pr h => Nat.ne_of_lt (hwf pr h)

lemma fresh_succ_of_WF (fs : FS) (hwf : fs.WF) : ∀ pr ∈ fs.files, pr.1 ≠ fs.nextId + 1 :=
  fun pr h => by have := hwf pr h; omega

/-- Net file store effect of the admission pipeline: the staged artifact is
deleted after the caller side cleanup on every path, and every rejection
returns no artifact with the staged file already deleted. -/
lemma vap_cleanup (cfg : AudioProcessorCfg) (read : ReadCap) (fs : FS) (hwf : fs.WF)
    (bytes : List Nat) (fmt : String) :
    (cleanupTemp (validate_and_process cfg read fs bytes fmt).1
        (validate_and_process cfg read fs bytes fmt).2.2.2).files = fs.files ∧
    ((validate_and_process cfg read fs bytes fmt).2.1 = false →
      (validate_and_process cfg read fs bytes fmt).2.2.2 = none ∧
      (validate_and_process cfg read fs bytes fmt).1.files = fs.files) := by
  have h1 := fresh_of_WF fs hwf
  have h2 := fresh_succ_of_WF fs hwf
  simp only [validate_and_process]
  cases hr : read bytes fmt with
  | error e =>
    simp [cleanupTemp, removeFile, addFile, removeAll_staged _ _ _ h1]
  | ok pr =>
    obtain ⟨data, sr⟩ := pr
    dsimp only
    by_cases hsr : sr ≠ cfg.expected_sample_rate
    · rw [if_pos hsr]
      simp [cleanupTemp, removeFile, addFile, removeAll_staged _ _ _ h1]
    · rw [if_neg hsr]
      cases data with
      | d1 samples =>
        simp [handle_stereo_audio, cleanupTemp, removeFile, addFile,
              removeAll_staged _ _ _ h1]
      | d2 rows cols =>
        by_cases hc : cols = 2
        · subst hc
          simp only [handle_stereo_audio, if_pos rfl]
          cases hm : cfg.convert_to_mono with
          | false =>
            simp [hm, cleanupTemp, removeFile, addFile, removeAll_staged _ _ _ h1]
          | true =>
            simp [hm, cleanupTemp, removeFile, addFile, removeAll_append,
                  removeAll_fresh _ _ h1, removeAll_fresh _ _ h2,
                  removeAll_self_singleton, removeAll_succ_singleton,
                  removeAll, Nat.succ_ne_self]
        · simp only [handle_stereo_audio, if_neg hc]
          simp [cleanupTemp, removeFile, addFile, removeAll_staged _ _ _ h1]

/-! Claim theorems. -/

/-- Claim C2: serialization round trip. For every AudioRequest m the wire
codec satisfies decode(encode(m)) == m, and likewise for every
TranscriptionResponse, including responses with confidence or
error_details absent: the deserializer rebuilds exactly the Python object
denoted by m, and that denoted object determines m uniquely. -/
theorem claim_C2 :
    (∀ r : AudioRequest,
        deserialize_audio_request (serialize_audio_request r) = .ok r.toPy) ∧
    (∀ r1 r2 : AudioRequest, r1.toPy = r2.toPy → r1 = r2) ∧
    (∀ t : TranscriptionResponse,
        deserialize_transcription_response (serialize_transcription_response t) = .ok t.toPy) ∧
    (∀ t1 t2 : TranscriptionResponse, t1.toPy = t2.toPy → t1 = t2) := by
  refine ⟨fun r => rfl, ?_, fun t => rfl, ?_⟩
  · intro r1 r2 h
    cases r1; cases r2
    simp [AudioRequest.toPy] at h
    simp_all
  · intro t1 t2 h
    cases t1; cases t2
    simp [TranscriptionResponse.toPy] at h
    obtain ⟨h1, h2, h3, h4, h5, h6⟩ := h
    have hc := optFloatMsg_inj h4
    have he := optStrMsg_inj h6
    simp_all

/-- Witness for claim C2 at concrete messages, one of them with confidence
present and error_details absent. -/
theorem claim_C2_witness :
    (deserialize_audio_request (serialize_audio_request ⟨"r1", "wav", 16000, [1, 2]⟩) =
      .ok (AudioRequest.toPy ⟨"r1", "wav", 16000, [1, 2]⟩)) ∧
    ((⟨"r1", "wav", 16000, [1, 2]⟩ : AudioRequest) = ⟨"r1", "wav", 16000, [1, 2]⟩) ∧
    (deserialize_transcription_response (serialize_transcription_response
        ⟨"r1", "success", "hello world", some (97 / 100), 5, none⟩) =
      .ok (TranscriptionResponse.toPy ⟨"r1", "success", "hello world", some (97 / 100), 5, none⟩)) ∧
    ((⟨"r1", "success", "hello world", some (97 / 100), 5, none⟩ : TranscriptionResponse) =
      ⟨"r1", "success", "hello world", some (97 / 100), 5, none⟩) :=
  ⟨claim_C2.1 _, claim_C2.2.1 _ _ rfl, claim_C2.2.2.1 _, claim_C2.2.2.2 _ _ rfl⟩

/-- Claim C8, evaluated at the failing input: the msgpack encoding of the
integer 0 is a valid byte stream whose unpacked value is not a dict, and
both deserializers then raise TypeError, which the except clause does not
rewrap into ValueError. This contradicts the documented contract that
deserialization failures raise ValueError. -/
theorem claim_C8 :
    deserialize_audio_request (MsgVal.int 0) =
      DeserOutcome.typeError "object is not subscriptable" ∧
    deserialize_transcription_response (MsgVal.int 0) =
      DeserOutcome.typeError "object is not subscriptable" :=
  ⟨rfl, rfl⟩

/-- Claim C9: an inbound multipart message with fewer than two frames makes
receive_request return None, exactly the result of a poll timeout, with no
decode error raised and nothing sent. -/
theorem claim_C9 (unpack : UnpackCap) (parts : List (List Nat))
    (hshort : parts.length < 2) :
    receive_request unpack (PollResult.frames parts) = RecvResult.noMsg ∧
    receive_request unpack PollResult.timeout = RecvResult.noMsg := by
  constructor
  · unfold receive_request
    dsimp only
    rw [if_pos hshort]
  · rfl

/-- Witness for claim C9: a single frame message. -/
theorem claim_C9_witness :
    receive_request (fun _ => Except.error "bad") (PollResult.frames [[]]) = RecvResult.noMsg ∧
    receive_request (fun _ => Except.error "bad") PollResult.timeout = RecvResult.noMsg :=
  claim_C9 (fun _ => Except.error "bad") [[]] (by decide)

/-- Claim C3: AudioRequest.validate succeeds exactly when the four
constraints hold simultaneously, and for every invalid request the service
loop sends exactly one error response that preserves the request id, with
the file store untouched and the result independent of the admission and
inference capabilities, which are therefore never invoked. -/
theorem claim_C3 :
    (∀ r : AudioRequest,
        r.validate.1 = true ↔
          (r.request_id ≠ "" ∧ (r.audio_format = "wav" ∨ r.audio_format = "flac") ∧
           0 < r.sample_rate ∧ r.audio_data ≠ [])) ∧
    (∀ (cfg : AudioProcessorCfg) (read : ReadCap) (tcap : TranscribeCap) (elapsed : Rat)
        (identity : List Nat) (r : AudioRequest) (fs : FS),
        r.validate.1 = false →
          processOneRequest cfg read tcap elapsed (RecvOutcome.msg identity r) fs =
            ⟨fs, [TranscriptionResponse.create_error r.request_id
                    ("Request validation failed: " ++ pyStr r.validate.2) 0]⟩) := by
  constructor
  · intro r
    unfold AudioRequest.validate
    split_ifs <;> simp_all
  · intro cfg read tcap elapsed identity r fs h
    have h0 : r.validate = (r.validate.1, r.validate.2) := rfl
    rw [h] at h0
    simp only [processOneRequest]
    rw [h0]

/-- Witness for claim C3: a valid request, and an invalid request with the
empty request id processed end to end. -/
theorem claim_C3_witness :
    ((⟨"x", "wav", 1, [1]⟩ : AudioRequest).validate.1 = true ↔
      ((⟨"x", "wav", 1, [1]⟩ : AudioRequest).request_id ≠ "" ∧
       ((⟨"x", "wav", 1, [1]⟩ : AudioRequest).audio_format = "wav" ∨
        (⟨"x", "wav", 1, [1]⟩ : AudioRequest).audio_format = "flac") ∧
       0 < (⟨"x", "wav", 1, [1]⟩ : AudioRequest).sample_rate ∧
       (⟨"x", "wav", 1, [1]⟩ : AudioRequest).audio_data ≠ [])) ∧
    processOneRequest ⟨16000, false⟩ (fun _ _ => Except.error "no")
        (fun _ => Except.error "no") 0
        (RecvOutcome.msg [] ⟨"", "wav", 1, [1]⟩) ⟨0, []⟩ =
      ⟨⟨0, []⟩, [TranscriptionResponse.create_error ""
        ("Request validation failed: " ++
          pyStr (⟨"", "wav", 1, [1]⟩ : AudioRequest).validate.2) 0]⟩ :=
  ⟨claim_C3.1 _, claim_C3.2 _ _ _ _ _ _ _ rfl⟩

/-- Claim C1: end to end success scenario. A well formed wav request with
id r1 whose payload decodes to mono audio at the configured 16000 Hz, with
the inference capability returning the hypothesis (hello world, 0.97),
makes the service send exactly one success response carrying id r1, the
text, the confidence, and no error details. -/
theorem claim_C1 (mono : Bool) (identity bytes : List Nat) (hbytes : bytes ≠ [])
    (samples : List Rat) (elapsed : Rat) (fs : FS) (read : ReadCap) (tcap : TranscribeCap)
    (hread : read bytes "wav" = Except.ok (NpArray.d1 samples, 16000))
    (htrans : tcap (some fs.nextId) =
      Except.ok [NemoResult.hyp "hello world" (some (97 / 100))]) :
    (processOneRequest ⟨16000, mono⟩ read tcap elapsed
        (RecvOutcome.msg identity ⟨"r1", "wav", 16000, bytes⟩) fs).sent =
      [⟨"r1", "success", "hello world", some (97 / 100), elapsed, none⟩] := by
  have hval : (⟨"r1", "wav", 16000, bytes⟩ : AudioRequest).validate = (true, none) := by
    unfold AudioRequest.validate
    dsimp only
    rw [if_neg (by decide), if_neg (by decide), if_neg (by decide), if_neg hbytes]
  have hvap : validate_and_process ⟨16000, mono⟩ read fs bytes "wav" =
      (addFile fs (FileData.raw bytes "wav"), (true, none, some fs.nextId)) := by
    unfold validate_and_process
    dsimp only
    rw [hread]
    dsimp only
    rw [if_neg (by decide)]
    rfl
  simp only [processOneRequest]
  rw [hval]
  dsimp only
  simp only [processValid]
  rw [hvap]
  dsimp only
  simp only [transcribe]
  rw [htrans]
  rfl

/-- Witness for claim C1 at a concrete scenario. -/
theorem claim_C1_witness :
    (processOneRequest ⟨16000, false⟩ (fun _ _ => Except.ok (NpArray.d1 [0], 16000))
        (fun _ => Except.ok [NemoResult.hyp "hello world" (some (97 / 100))]) 3
        (RecvOutcome.msg [] ⟨"r1", "wav", 16000, [1]⟩) ⟨0, []⟩).sent =
      [⟨"r1", "success", "hello world", some (97 / 100), 3, none⟩] :=
  claim_C1 false [] [1] (by decide) [0] 3 ⟨0, []⟩ _ _ rfl rfl

/-- Counterexample for claim C4 as stated: with the audio payload still
decoding to the expected 16000 Hz and only the declared sample_rate field
set to 44100, the code ignores the declared field (validation only checks
positivity, admission compares the decoded rate), invokes the inference
capability, and sends a success response: no error response mentioning an
invalid sample rate is produced. -/
theorem claim_C4_counterexample :
    (processOneRequest ⟨16000, false⟩ (fun _ _ => Except.ok (NpArray.d1 [0], 16000))
        (fun _ => Except.ok [NemoResult.hyp "hello world" (some (97 / 100))]) 7
        (RecvOutcome.msg [] ⟨"r1", "wav", 44100, [1]⟩) ⟨0, []⟩).sent =
      [⟨"r1", "success", "hello world", some (97 / 100), 7, none⟩] ∧
    ((processOneRequest ⟨16000, false⟩ (fun _ _ => Except.ok (NpArray.d1 [0], 16000))
        (fun _ => Except.ok [NemoResult.hyp "hello world" (some (97 / 100))]) 7
        (RecvOutcome.msg [] ⟨"r1", "wav", 44100, [1]⟩) ⟨0, []⟩).sent.all
      (fun rsp => !(rsp.status == "error" &&
          strContains (pyStr rsp.error_details) "invalid sample rate"))) = true := by
  constructor <;> rfl

/-- Claim C4 as amended: when the audio payload actually decodes to a
44100 Hz rate against the configured 16000 Hz, the service sends exactly
one error response for r1 whose error details contain the text Invalid
sample rate (with a capital I, as the code emits), the staged artifact is
removed, and the result does not depend on the inference capability, which
is therefore not invoked. -/
theorem claim_C4 (mono : Bool) (identity bytes : List Nat) (hbytes : bytes ≠ [])
    (samples : List Rat) (elapsed : Rat) (fs : FS) (hwf : fs.WF)
    (read : ReadCap) (tcap : TranscribeCap)
    (hread : read bytes "wav" = Except.ok (NpArray.d1 samples, 44100)) :
    processOneRequest ⟨16000, mono⟩ read tcap elapsed
        (RecvOutcome.msg identity ⟨"r1", "wav", 44100, bytes⟩) fs =
      ⟨⟨fs.nextId + 1, fs.files⟩,
       [TranscriptionResponse.create_error "r1"
          ("Audio validation failed: " ++ sampleRateMsg 16000 44100) 0]⟩ ∧
    strContains ("Audio validation failed: " ++ sampleRateMsg 16000 44100)
      "Invalid sample rate" = true := by
  constructor
  · have hval : (⟨"r1", "wav", 44100, bytes⟩ : AudioRequest).validate = (true, none) := by
      unfold AudioRequest.validate
      dsimp only
      rw [if_neg (by decide), if_neg (by decide), if_neg (by decide), if_neg hbytes]
    have hvap : validate_and_process ⟨16000, mono⟩ read fs bytes "wav" =
        (⟨fs.nextId + 1, fs.files⟩, (false, some (sampleRateMsg 16000 44100), none)) := by
      unfold validate_and_process
      dsimp only
      rw [hread]
      dsimp only
      rw [if_pos (by decide)]
      simp [removeFile, addFile, removeAll_staged _ _ _ (fresh_of_WF fs hwf)]
    simp only [processOneRequest]
    rw [hval]
    dsimp only
    simp only [processValid]
    rw [hvap]
    rfl
  · decide

/-- Witness for the amended claim C4 at a concrete scenario. -/
theorem claim_C4_witness :
    processOneRequest ⟨16000, false⟩ (fun _ _ => Except.ok (NpArray.d1 [0], 44100))
        (fun _ => Except.error "never") 9
        (RecvOutcome.msg [] ⟨"r1", "wav", 44100, [1]⟩) ⟨0, []⟩ =
      ⟨⟨1, []⟩,
       [TranscriptionResponse.create_error "r1"
          ("Audio validation failed: " ++ sampleRateMsg 16000 44100) 0]⟩ ∧
    strContains ("Audio validation failed: " ++ sampleRateMsg 16000 44100)
      "Invalid sample rate" = true :=
  claim_C4 false [] [1] (by decide) [0] 9 ⟨0, []⟩ (by intro pr h; cases h) _ _ rfl

/-- Claim C6: engine lifecycle. While the slot is loaded, get_model returns
the existing instance and only restamps the last access time; when the
elapsed idle time since last access reaches the timeout, the next monitor
tick empties the slot; a subsequent get_model materializes a fresh
instance, distinct from the previous one. -/
theorem claim_C6 (loader : LoaderCap) (s : MMState) (m : Nat) (hm : s.model = some m)
    (now now2 now3 timeout_seconds : Rat)
    (hidle : now2 - now ≥ timeout_seconds)
    (hload : loader s.load_count = true) (hfresh : m < s.load_count) :
    get_model loader now s = ({ s with last_used_time := now }, Except.ok m) ∧
    (monitorTick timeout_seconds now2 (get_model loader now s).1).model = none ∧
    get_model loader now3 (monitorTick timeout_seconds now2 (get_model loader now s).1) =
      (⟨some s.load_count, now3, s.load_count + 1⟩, Except.ok s.load_count) ∧
    s.load_count ≠ m := by
  obtain ⟨mo, lu, lc⟩ := s
  simp only at hm
  subst hm
  refine ⟨by simp [get_model], ?_, ?_, by omega⟩
  · simp [get_model, monitorTick, if_pos hidle]
  · simp [get_model, monitorTick, if_pos hidle, hload]

/-- Witness for claim C6 at a concrete lifecycle run. -/
theorem claim_C6_witness :
    get_model (fun _ => true) 1 ⟨some 0, 0, 1⟩ =
      ({ (⟨some 0, 0, 1⟩ : MMState) with last_used_time := 1 }, Except.ok 0) ∧
    (monitorTick 600 700 (get_model (fun _ => true) 1 ⟨some 0, 0, 1⟩).1).model = none ∧
    get_model (fun _ => true) 800
        (monitorTick 600 700 (get_model (fun _ => true) 1 ⟨some 0, 0, 1⟩).1) =
      (⟨some 1, 800, 2⟩, Except.ok 1) ∧
    (1 : Nat) ≠ 0 :=
  claim_C6 (fun _ => true) ⟨some 0, 0, 1⟩ 0 rfl 1 700 800 600 (by norm_num) rfl (by decide)

/-- Axis 1 mean of a two column array is the sample wise average of the two
channels. -/
lemma mean_pairs (chans : List (Rat × Rat)) :
    npMeanAxis1 (chans.map (fun p => [p.1, p.2])) 2 = chans.map (fun p => (p.1 + p.2) / 2) := by
  unfold npMeanAxis1
  rw [List.map_map]
  congr 1
  funext p
  simp [Function.comp]

/-- Claim C5: stereo policy. For a two channel input whose decoded sample
rate equals the configured one, admission with mono conversion disabled
rejects with an error message, no artifact, and the staged file removed;
with mono conversion enabled it accepts, the returned artifact holds one
channel audio at the same rate obtained by averaging the two channels
sample wise, and the original stereo artifact is removed. -/
theorem claim_C5 (sr : Int) (fs : FS) (hwf : fs.WF) (bytes : List Nat) (fmt : String)
    (read : ReadCap) (chans : List (Rat × Rat))
    (hread : read bytes fmt =
      Except.ok (NpArray.d2 (chans.map (fun p => [p.1, p.2])) 2, sr)) :
    validate_and_process ⟨sr, false⟩ read fs bytes fmt =
      (⟨fs.nextId + 1, fs.files⟩, (false, some stereoDisabledMsg, none)) ∧
    validate_and_process ⟨sr, true⟩ read fs bytes fmt =
      (⟨fs.nextId + 2, fs.files ++
          [(fs.nextId + 1, FileData.audio
              (NpArray.d1 (chans.map (fun p => (p.1 + p.2) / 2))) sr)]⟩,
       (true, none, some (fs.nextId + 1))) := by
  have h1 := fresh_of_WF fs hwf
  constructor
  · unfold validate_and_process
    dsimp only
    rw [hread]
    dsimp only
    rw [if_neg (by simp)]
    unfold handle_stereo_audio
    dsimp only
    rw [if_pos rfl, if_pos (by decide)]
    simp [removeFile, addFile, removeAll_staged _ _ _ h1]
  · unfold validate_and_process
    dsimp only
    rw [hread]
    dsimp only
    rw [if_neg (by simp)]
    unfold handle_stereo_audio
    dsimp only
    rw [if_pos rfl, if_neg (by decide)]
    simp [removeFile, addFile, removeAll_append, removeAll_fresh _ _ h1,
          removeAll_self_singleton, removeAll_succ_singleton, mean_pairs,
          removeAll, Nat.succ_ne_self]

/-- Witness for claim C5 with the concrete stereo frames (1,3). -/
theorem claim_C5_witness :
    validate_and_process ⟨16000, false⟩
        (fun _ _ => Except.ok (NpArray.d2 ([((1 : Rat), (3 : Rat))].map (fun p => [p.1, p.2])) 2, 16000))
        ⟨0, []⟩ [7] "wav" =
      (⟨1, []⟩, (false, some stereoDisabledMsg, none)) ∧
    validate_and_process ⟨16000, true⟩
        (fun _ _ => Except.ok (NpArray.d2 ([((1 : Rat), (3 : Rat))].map (fun p => [p.1, p.2])) 2, 16000))
        ⟨0, []⟩ [7] "wav" =
      (⟨2, [(1, FileData.audio
          (NpArray.d1 ([((1 : Rat), (3 : Rat))].map (fun p => (p.1 + p.2) / 2))) 16000)]⟩,
       (true, none, some 1)) :=
  claim_C5 16000 ⟨0, []⟩ (by intro pr h; cases h) [7] "wav" _ [((1 : Rat), (3 : Rat))] rfl

/-- Claim C10: an input decoded as a two dimensional array whose second
shape dimension is three or more is not stereo for handle_stereo_audio, so
admission accepts it untouched: the staged raw artifact is returned
unchanged, with no rejection and no channel conversion. -/
theorem claim_C10 (cfg : AudioProcessorCfg) (read : ReadCap) (fs : FS)
    (bytes : List Nat) (fmt : String) (rows : List (List Rat)) (c : Nat) (hc : 3 ≤ c)
    (hread : read bytes fmt = Except.ok (NpArray.d2 rows c, cfg.expected_sample_rate)) :
    validate_and_process cfg read fs bytes fmt =
      (addFile fs (FileData.raw bytes fmt), (true, none, some fs.nextId)) := by
  unfold validate_and_process
  dsimp only
  rw [hread]
  dsimp only
  rw [if_neg (by simp)]
  unfold handle_stereo_audio
  dsimp only
  rw [if_neg (by omega)]

/-- Witness for claim C10 with a three channel input. -/
theorem claim_C10_witness :
    validate_and_process ⟨16000, false⟩
        (fun _ _ => Except.ok (NpArray.d2 [[1, 2, 3]] 3, 16000)) ⟨0, []⟩ [9] "wav" =
      (addFile ⟨0, []⟩ (FileData.raw [9] "wav"), (true, none, some 0)) :=
  claim_C10 ⟨16000, false⟩ _ ⟨0, []⟩ [9] "wav" [[1, 2, 3]] 3 (by decide) rfl

/-- Claim C7: resource cleanup. Every rejection by the admission pipeline
returns no artifact and leaves the file store as it was (the staged file is
deleted), and one full service loop iteration leaves the file store
unchanged on every path, success, rejection and failure alike: any returned
artifact is deleted by the finally block. -/
theorem claim_C7 :
    (∀ (cfg : AudioProcessorCfg) (read : ReadCap) (fs : FS), fs.WF →
      ∀ (bytes : List Nat) (fmt : String),
        (validate_and_process cfg read fs bytes fmt).2.1 = false →
          (validate_and_process cfg read fs bytes fmt).2.2.2 = none ∧
          (validate_and_process cfg read fs bytes fmt).1.files = fs.files) ∧
    (∀ (cfg : AudioProcessorCfg) (read : ReadCap) (tcap : TranscribeCap) (elapsed : Rat)
        (recv : RecvOutcome) (fs : FS), fs.WF →
        (processOneRequest cfg read tcap elapsed recv fs).fs.files = fs.files) := by
  constructor
  · intro cfg read fs hwf bytes fmt hfalse
    exact (vap_cleanup cfg read fs hwf bytes fmt).2 hfalse
  · intro cfg read tcap elapsed recv fs hwf
    cases recv with
    | timeout => rfl
    | deserFailure m => rfl
    | msg identity req =>
      simp only [processOneRequest]
      have hmain := (vap_cleanup cfg read fs hwf req.audio_data req.audio_format).1
      cases hv : req.validate with
      | mk b e =>
        cases b
        · rfl
        · simp only [processValid]
          rcases hres : validate_and_process cfg read fs req.audio_data req.audio_format with
            ⟨fs1, ok, emsg, temp⟩
          rw [hres] at hmain
          cases ok
          · exact hmain
          · dsimp only
            rcases htr : transcribe tcap elapsed temp with e | v
            · exact hmain
            · rcases v with ⟨text, t, conf⟩
              exact hmain

/-- Witness for claim C7: a rejected decode, and a timeout iteration. -/
theorem claim_C7_witness :
    ((validate_and_process ⟨16000, false⟩ (fun _ _ => Except.error "boom")
        ⟨0, []⟩ [1] "wav").2.2.2 = none ∧
     (validate_and_process ⟨16000, false⟩ (fun _ _ => Except.error "boom")
        ⟨0, []⟩ [1] "wav").1.files = (⟨0, []⟩ : FS).files) ∧
    (processOneRequest ⟨16000, false⟩ (fun _ _ => Except.error "boom")
        (fun _ => Except.error "x") 0 RecvOutcome.timeout ⟨0, []⟩).fs.files =
      (⟨0, []⟩ : FS).files :=
  ⟨claim_C7.1 _ _ _ (by intro pr h; cases h) _ _ rfl,
   claim_C7.2 _ _ _ _ _ _ (by intro pr h; cases h)⟩

end STT
